import Mathlib

/-!
Verification of the metrograph-watchlist matching-and-reconciliation pipeline.

The Go source is shallowly embedded: pure computations become Lean functions,
HTTP collaborators become explicit parameters (oracles or state lists), and the
per-run side effects of the reconciliation passes are modelled as the list of
operations the pass issues, in issue order.  Go maps iterated by `range` are
modelled as association lists (iteration order is not part of any claim).
Go strings are modelled as Lean `String`; Go indexes bytes while Lean indexes
characters, which coincides on the ASCII prefixes compared by this program
(a non-ASCII character can never compare equal to an ASCII one, so both
models reject exactly the same inputs).
-/

namespace Metrograph

/-! ## Go string helpers (strings.TrimSpace, regexp replacements) -/

/-- ASCII part of Go `unicode.IsSpace`, used by `strings.TrimSpace`. -/
def goIsSpace (c : Char) : Bool :=
  c == ' ' || c == '\t' || c == '\n' || c == '\x0b' || c == '\x0c' || c == '\r'

/-- Character class `\s` of Go regexp (without Unicode flags): `[\t\n\f\r ]`. -/
def goRegexSpace (c : Char) : Bool :=
  c == '\t' || c == '\n' || c == '\x0c' || c == '\r' || c == ' '

/-- Go `strings.TrimSpace` (ASCII whitespace; the program only feeds it
scraped ASCII-spaced titles). -/
def goTrimSpace (s : String) : String :=
  (((s.toList.dropWhile goIsSpace).reverse.dropWhile goIsSpace).reverse).asString

/-- One step of `regexp \[[^\]]*\]` replacement with `""`: on a literal `[`,
if a closing `]` follows, the whole bracketed segment is dropped; an
unmatched `[` is kept verbatim.  Fuel is the initial length, which bounds
the number of steps since every step consumes at least one character. -/
def removeBracketsAux : Nat → List Char → List Char
  | 0, l => l
  | _ + 1, [] => []
  | fuel + 1, c :: rest =>
    if c == '[' && rest.contains ']' then
      removeBracketsAux fuel ((rest.dropWhile (fun d => d != ']')).tail)
    else
      c :: removeBracketsAux fuel rest

/-- `regexp.MustCompile("\[[^\]]*\]").ReplaceAllString(title, "")`. -/
def removeBrackets (s : String) : String :=
  (removeBracketsAux s.toList.length s.toList).asString

/-- Whether the list begins with `presents:` case-insensitively (ASCII case
folding, matching the Go `(?i)` flag on this ASCII pattern). -/
def presentsAt (l : List Char) : Bool :=
  (l.take 9).map Char.toLower == "presents:".toList

/-- Remainder after the match of `(?i)^.*presents:\s*`, when the pattern
matches.  `.` does not cross a newline, so the greedy `.*` reaches the last
`presents:` occurrence on the first line; `none` when there is no match. -/
def afterLastPresents : List Char → Option (List Char)
  | [] => none
  | c :: rest =>
    match (if c == '\n' then none else afterLastPresents rest) with
    | some r => some r
    | none => if presentsAt (c :: rest) then some ((c :: rest).drop 9) else none

/-- `regexp.MustCompile("(?i)^.*presents:\s*").ReplaceAllString(s, "")`:
the text after the last first-line `presents:`, with the following
whitespace run consumed by the greedy `\s*`; the input unchanged when the
pattern does not match. -/
def removePresents (s : String) : String :=
  match afterLastPresents s.toList with
  | none => s
  | some r => (r.dropWhile goRegexSpace).asString

/-- `cleanTitle` from pkg/metrograph.go: the ordered title variants tried
against TMDB.  Each candidate is appended only under the guards of the
source (non-empty and different from the title; the combined variant is
additionally compared against both single-rule variants). -/
def cleanTitle (title : String) : List String :=
  let withoutBrackets := goTrimSpace (removeBrackets title)
  let withoutPresents := goTrimSpace (removePresents title)
  let withoutBoth := goTrimSpace (removePresents withoutBrackets)
  title ::
    ((if withoutBrackets ≠ title ∧ withoutBrackets ≠ "" then [withoutBrackets] else [])
      ++ (if withoutPresents ≠ title ∧ withoutPresents ≠ "" then [withoutPresents] else [])
      ++ (if withoutBoth ≠ title ∧ withoutBoth ≠ withoutBrackets ∧
            withoutBoth ≠ withoutPresents ∧ withoutBoth ≠ "" then [withoutBoth] else []))

/-! ## Data model (pkg/metrograph.go) -/

/-- `Film`; field defaults are the Go zero values. -/
structure Film where
  title : String := ""
  rawMD : String := ""
  director : String := ""
  year : Int := 0
  tmdbId : Int := 0
  imdbId : String := ""
deriving DecidableEq, Repr

/-- `Series`. -/
structure Series where
  name : String := ""
  url : String := ""
  id : String := ""
  movies : List Film := []
deriving DecidableEq, Repr

/-- `ScrapedData`; the `Collections` map is modelled as an association list. -/
structure ScrapedData where
  date : String := ""
  collections : List (String × Series) := []
deriving DecidableEq, Repr

/-- `TMDBMovie`. -/
structure TMDBMovie where
  id : Int := 0
  title : String := ""
  releaseDate : String := ""
  imdbId : String := ""
deriving DecidableEq, Repr

/-- What one `http.Get` against the TMDB search endpoint can yield: a
transport error (including a JSON decode failure) or an HTTP status with the
decoded result list. -/
inductive LookupResult where
  | transportError (msg : String)
  | httpResponse (status : Nat) (results : List TMDBMovie)
deriving DecidableEq, Repr

/-! ## CatalogMatcher (pkg/metrograph.go: searchTMDBWithTitle, SearchTMDB,
populateIMDBID).  The network call is the `lookup` parameter: the response
`http.Get` produced for a given title variant and year.  The api key only
enters the request URL, so it is not a parameter of the lookup itself. -/

/-- `searchTMDBWithTitle`: transport errors and non-200 statuses are errors;
an empty result list is the explicit `(nil, nil)` no-result outcome; otherwise
the first candidate is returned. -/
def searchTMDBWithTitle (lookup : String → Int → LookupResult) (title : String)
    (year : Int) : Except String (Option TMDBMovie) :=
  match lookup title year with
  | .transportError msg => .error msg
  | .httpResponse status results =>
    if status ≠ 200 then .error ("TMDB API returned status " ++ toString status)
    else
      match results with
      | [] => .ok none
      | r :: _ => .ok (some r)

/-- The variant loop of `SearchTMDB`: first variant with a candidate wins, an
error from any lookup propagates, and exhausting the variants is the
`no results found` error. -/
def searchVariants (lookup : String → Int → LookupResult) (title : String)
    (year : Int) : List String → Except String TMDBMovie
  | [] => .error ("no results found for " ++ title ++ " (" ++ toString year
      ++ ") or any variations")
  | v :: rest =>
    match searchTMDBWithTitle lookup v year with
    | .error e => .error e
    | .ok (some movie) => .ok movie
    | .ok none => searchVariants lookup title year rest

/-- `SearchTMDB`. -/
def SearchTMDB (lookup : String → Int → LookupResult) (title : String)
    (year : Int) (apiKey : String) : Except String TMDBMovie :=
  if apiKey = "" then .error "TMDB API key is required"
  else searchVariants lookup title year (cleanTitle title)

/-- `populateIMDBID`: the in-place loop over `films` that stores the TMDB id
of a successful lookup and leaves the film untouched on any lookup error
(which is only logged). -/
def populateIMDBID (lookup : String → Int → LookupResult) (films : List Film)
    (tmdbAPIKey : String) : List Film :=
  films.map (fun film =>
    if tmdbAPIKey ≠ "" then
      match SearchTMDB lookup film.title film.year tmdbAPIKey with
      | .ok movie => { film with tmdbId := movie.id }
      | .error _ => film
    else film)

/-! ## CatalogMerger and CatalogStore (pkg/metrograph.go) -/

/-- `dedupeFilms`: the two Go loops, written as folds.  The first loop copies
`colA` while recording its titles in the `added` set; the second appends each
film of `colB` whose title is not in that set (the set is never extended
while looping over `colB`). -/
def dedupeFilms (colA colB : List Film) : List Film :=
  let first := colA.foldl
    (fun (acc : List Film × List String) f => (acc.1 ++ [f], acc.2 ++ [f.title]))
    ([], [])
  colB.foldl
    (fun acc f => if first.2.contains f.title then acc else acc ++ [f])
    first.1

/-- The number of films of a series with a resolved TMDB id: the
`validMovies` counter computed identically in `writeToFile`,
`ProcessJSONToRadarr` and `SyncCollectionsFromJSON`. -/
def validMovieCount (series : Series) : Nat :=
  (series.movies.filter (fun movie => decide (0 < movie.tmdbId))).length

/-- The pure core of `writeToFile`: filter to series with more than 2 valid
movies and stamp the snapshot with the current date (passed in, since
`time.Now` is ambient).  The file write itself is I/O. -/
def writeToFile (scrappedSeries : List (String × Series)) (today : String) :
    ScrapedData :=
  { date := today,
    collections := scrappedSeries.filter (fun p => decide (2 < validMovieCount p.2)) }

/-- `fileData.Collections[id]` lookup. -/
def lookupSeries (collections : List (String × Series)) (id : String) :
    Option Series :=
  (collections.find? (fun p => p.1 == id)).map (fun p => p.2)

/-- The pure core of `UpdateFileStore`: merge each scraped series with the
stored series of the same id (when present) and persist through
`writeToFile`.  Reading and parsing the prior snapshot is I/O; a parse
failure aborts before this point. -/
def UpdateFileStore (scrappedData : List (String × Series)) (fileData : ScrapedData)
    (today : String) : ScrapedData :=
  writeToFile
    (scrappedData.map (fun p =>
      match lookupSeries fileData.collections p.1 with
      | some col => (p.1, { p.2 with movies := dedupeFilms col.movies p.2.movies })
      | none => p))
    today

/-! ## Radarr client (src/unnamed/part_000, second revision) -/

/-- `starr.Tag`. -/
structure StarrTag where
  id : Int := 0
  label : String := ""
deriving DecidableEq, Repr

/-- `RadarrConfig`. -/
structure RadarrConfig where
  host : String := ""
  apiKey : String := ""
  rootFolderPath : String := ""
  qualityProfileID : Int := 0
  monitored : Bool := false
  searchForMovie : Bool := false
deriving DecidableEq, Repr

/-- `GetTagIDByName`: a pure lookup over the tag list Radarr returns; the
first tag whose label matches wins, and an absent label is an error (the
Go error text quotes the tag name; the quoting is elided here). -/
def GetTagIDByName (tags : List StarrTag) (tagName : String) : Except String Int :=
  match tags.find? (fun t => t.label == tagName) with
  | some t => .ok t.id
  | none => .error ("tag " ++ tagName ++ " not found in Radarr")

/-- `containsAny`: the Go byte-slice scan for any of the substrings. -/
def containsAny (s : String) (substrs : List String) : Bool :=
  substrs.any (fun sub =>
    decide (sub.toList.length ≤ s.toList.length) &&
      (List.range (s.toList.length - sub.toList.length + 1)).any
        (fun i => (s.toList.drop i).take sub.toList.length == sub.toList))

/-- The error classification of `AddMovie`: an add failure whose message
contains `already been added` or `already exists`. -/
def isAlreadyExistsResponse (msg : String) : Bool :=
  containsAny msg ["already been added", "already exists"]

/-- The tag-merging loop of the already-exists branch of `AddMovie`: walk the
requested ids, appending each id absent from the pre-existing tag set (the
set consulted is the existing tags only and is never extended), counting the
appends. -/
def mergeMovieTags (existingTags tagIDs : List Int) : List Int × Nat :=
  tagIDs.foldl
    (fun (acc : List Int × Nat) tagID =>
      if existingTags.contains tagID then acc else (acc.1 ++ [tagID], acc.2 + 1))
    (existingTags, 0)

/-- The already-exists branch of `AddMovie` (part_000 lines 330-356), given
the existing movie was fetched successfully: the movie keeps its tags when
nothing new was added, and is updated to the merged list otherwise.  Returns
the final tag list and whether `UpdateMovieTags` was called. -/
def AddMovieOnExists (existingTags tagIDs : List Int) : List Int × Bool :=
  let r := mergeMovieTags existingTags tagIDs
  if 0 < r.2 then (r.1, true) else (existingTags, false)

/-- `AddMovie` after a failed add attempt with message `errMsg`, assuming the
follow-up fetch and update of the existing movie succeed: an already-exists
message succeeds with the merged tags, any other message is the wrapped
error (the Go wrapping also quotes the title and year; elided here). -/
def AddMovieResultOnFailure (errMsg : String) (existingTags tagIDs : List Int) :
    Except String (List Int × Bool) :=
  if isAlreadyExistsResponse errMsg then .ok (AddMovieOnExists existingTags tagIDs)
  else .error ("failed to add movie: " ++ errMsg)

/-! ## Downstream operation trace.  Each reconciliation pass is modelled as
the list of mutating operations it issues against the collaborators, in
issue order. -/

/-- `VisibilityConfig` (Agregarr). -/
structure VisibilityConfig where
  usersHome : Bool := false
  serverOwnerHome : Bool := false
  libraryRecommended : Bool := false
deriving DecidableEq, Repr

/-- `Collection` (src/unnamed/part_001); defaults are the Go zero values.
`typ` models the Go field `Type`. -/
structure Collection where
  id : String := ""
  name : String := ""
  visibilityConfig : VisibilityConfig := {}
  maxItems : Int := 0
  typ : String := ""
  subtype : String := ""
  mediaType : String := ""
  libraryIds : List String := []
  libraryNames : List String := []
  template : String := ""
  sortOrderHome : Int := 0
  sortOrderLibrary : Int := 0
  randomizeHomeOrder : Bool := false
  randomizeOrder : Bool := false
  autoPoster : Bool := false
  autoPosterTemplate : Int := 0
  searchMissingMovies : Bool := false
  autoApproveMovies : Bool := false
  downloadMode : String := ""
  radarrInstanceId : Int := 0
  directDownloadRadarrProfileID : Int := 0
  directDownloadRadarrRootFolder : String := ""
  radarrTagID : Int := 0
deriving DecidableEq, Repr

/-- A mutating call against the Radarr or Agregarr collaborators. -/
inductive Op where
  | createTag (label : String)
  | deleteTag (label : String)
  | addMovie (tmdbId : Int) (title : String) (year : Int) (tagIds : List Int)
  | updateMovieTags (movieId : Int) (tags : List Int)
  | createCollection (collection : Collection)
  | deleteCollection (id : String)
deriving DecidableEq, Repr

/-- `CreateTag` against a Radarr tag state: return the id of an existing tag
with the label, otherwise add the tag (the server-assigned id is the `newId`
parameter).  Result: the resolved id, the new tag state, and the mutating
operations issued. -/
def CreateTag (tags : List StarrTag) (name : String) (newId : Int) :
    Int × List StarrTag × List Op :=
  match tags.find? (fun t => t.label == name) with
  | some t => (t.id, tags, [])
  | none => (newId, tags ++ [{ id := newId, label := name }], [Op.createTag name])

/-- The `AddMovie` calls a processed series issues: one per movie with a
resolved TMDB id, carrying the singleton tag list. -/
def seriesAddMovieOps (series : Series) (tagID : Int) : List Op :=
  (series.movies.filter (fun m => decide (0 < m.tmdbId))).map
    (fun m => Op.addMovie m.tmdbId m.title m.year [tagID])

/-- `ProcessJSONToRadarr` (part_000, second revision, lines 412-468) on the
success path of the collaborators: skip series with fewer than 2 valid
movies, resolve the series tag via `CreateTag`, then add every valid movie
with that tag.  Fresh tag ids are drawn from `nextId`. -/
def ProcessJSONToRadarr :
    List (String × Series) → List StarrTag → Int → List Op
  | [], _, _ => []
  | p :: rest, tags, nextId =>
    if validMovieCount p.2 < 2 then
      ProcessJSONToRadarr rest tags nextId
    else
      let r := CreateTag tags ("metrograph-" ++ p.1) nextId
      (r.2.2 ++ seriesAddMovieOps p.2 r.1)
        ++ ProcessJSONToRadarr rest r.2.1 (nextId + 1)

/-! ## Agregarr reconciliation (src/unnamed/part_001) -/

/-- The `expectedNames` set of `SyncCollectionsFromJSON`: one name
`Metrograph: <series name>` per series with at least 2 valid movies
(membership in the Go `map[string]bool` is list membership here). -/
def expectedNames (collections : List (String × Series)) : List String :=
  (collections.filter (fun p => decide (2 ≤ validMovieCount p.2))).map
    (fun p => "Metrograph: " ++ p.2.name)

/-- The collection-name test of the sync pass:
`len(collection.Name) > 12 && collection.Name[:12] == "Metrograph: "`. -/
def metrographNameTest (name : String) : Bool :=
  decide (12 < name.toList.length) && (name.toList.take 12 == "Metrograph: ".toList)

/-- The subtype test guarding the tag deletion:
`collection.Subtype != "" && len(collection.Subtype) > 11 && collection.Subtype[:11] == "metrograph-"`. -/
def metrographSubtypeTest (subtype : String) : Bool :=
  (subtype != "") && decide (11 < subtype.toList.length)
    && (subtype.toList.take 11 == "metrograph-".toList)

/-- Whether the sync pass deletes a given existing collection: the name test
together with absence from the expected names. -/
def syncShouldDelete (expected : List String) (c : Collection) : Bool :=
  metrographNameTest c.name && !(expected.contains c.name)

/-- The operations the sync pass issues for one existing collection: delete
it when `syncShouldDelete`, and also delete the Radarr tag named by its
subtype when the subtype test passes.  Deletions are independent and
best-effort; a failure is only counted, so the issued calls do not depend on
the outcomes. -/
def syncDeleteOpsFor (expected : List String) (c : Collection) : List Op :=
  if syncShouldDelete expected c then
    Op.deleteCollection c.id ::
      (if metrographSubtypeTest c.subtype then [Op.deleteTag c.subtype] else [])
  else []

/-- The loop of `SyncCollectionsFromJSON` over the existing collections. -/
def syncLoop (expected : List String) : List Collection → List Op
  | [] => []
  | c :: rest => syncDeleteOpsFor expected c ++ syncLoop expected rest

/-- `SyncCollectionsFromJSON` (part_001 lines 244-318): the operations issued
given the parsed snapshot and the collections Agregarr currently reports. -/
def SyncCollectionsFromJSON (scraped : List (String × Series))
    (existing : List Collection) : List Op :=
  syncLoop (expectedNames scraped) existing

/-- The collection literal built by `CreateCollectionsFromJSON`
(part_001 lines 360-392); unset fields keep their Go zero values. -/
def mkMetrographCollection (seriesID : String) (series : Series) (tagID : Int)
    (radarrConfig : RadarrConfig) : Collection :=
  { id := ""
    name := "Metrograph: " ++ series.name
    visibilityConfig := { usersHome := true, serverOwnerHome := true,
                          libraryRecommended := true }
    maxItems := 10
    typ := "radarrtag"
    subtype := "metrograph-" ++ seriesID
    mediaType := "movie"
    libraryIds := ["1"]
    template := "Metrograph: " ++ series.name
    autoPoster := true
    randomizeOrder := false
    searchMissingMovies := true
    autoApproveMovies := true
    downloadMode := "direct"
    radarrInstanceId := 0
    directDownloadRadarrProfileID := radarrConfig.qualityProfileID
    directDownloadRadarrRootFolder := radarrConfig.rootFolderPath
    radarrTagID := tagID }

/-- `CreateCollectionsFromJSON` (part_001 lines 320-404): for every series of
the file — the `validMovies` counter is computed but only logged and never
gates anything — look the tag id up with `GetTagIDByName` and create the
collection; a missing tag aborts the pass with that error (`return err`),
keeping the operations already issued.  A failed `CreateCollection` call is
only a logged warning, so the issued calls do not depend on the outcomes. -/
def CreateCollectionsFromJSON (scraped : List (String × Series))
    (tags : List StarrTag) (radarrConfig : RadarrConfig) : List Op × Option String :=
  match scraped with
  | [] => ([], none)
  | p :: rest =>
    match GetTagIDByName tags ("metrograph-" ++ p.1) with
    | .error e => ([], some e)
    | .ok tagID =>
      let r := CreateCollectionsFromJSON rest tags radarrConfig
      (Op.createCollection (mkMetrographCollection p.1 p.2 tagID radarrConfig) :: r.1,
        r.2)

/-! ## Spec-side notions used to compare the code with the specification -/

/-- Whether `s` starts with `p` in the ordinary string sense (the
specification's `starts with the literal prefix`), equality included. -/
def strStartsWith (p s : String) : Bool :=
  s.toList.take p.toList.length == p.toList

/-- The specification's deletion criterion for the sync pass, read literally:
the name starts with `Metrograph: ` and is not among the expected names. -/
def specSyncDeletes (expected : List String) (c : Collection) : Prop :=
  strStartsWith "Metrograph: " c.name = true ∧ expected.contains c.name = false

/-- The cardinality of the set of films of `colB` whose title does not occur
in `colA`, reading the specification's set comprehension as a set (distinct
elements) rather than as a count of occurrences. -/
def specNewTitleCard (colA colB : List Film) : Nat :=
  ((colB.filter (fun f => !((colA.map Film.title).contains f.title))).dedup).length

/-- The id GetTagIDByName resolves, with the Go zero value on error. -/
def tagIdOrZero (tags : List StarrTag) (name : String) : Int :=
  match GetTagIDByName tags name with
  | .ok i => i
  | .error _ => 0

/-- Whether an `Except` is a success. -/
def exceptOk (e : Except String Int) : Bool :=
  match e with
  | .ok _ => true
  | .error _ => false

/-- The ids of the collections an operation trace deletes. -/
def collectionDeleteIds (ops : List Op) : List String :=
  ops.filterMap (fun op =>
    match op with
    | Op.deleteCollection i => some i
    | _ => none)

/-! ## Helper lemmas -/

theorem dedupe_foldl_copy (colA : List Film) :
    ∀ (r : List Film) (t : List String),
      colA.foldl
        (fun (acc : List Film × List String) f => (acc.1 ++ [f], acc.2 ++ [f.title]))
        (r, t)
      = (r ++ colA, t ++ colA.map Film.title) := by
  induction colA with
  | nil => intro r t; simp
  | cons f rest ih =>
    intro r t
    simp only [List.foldl_cons, List.map_cons]
    rw [ih]
    simp

theorem dedupe_foldl_append (added : List String) (colB : List Film) :
    ∀ init : List Film,
      colB.foldl
        (fun acc f => if added.contains f.title then acc else acc ++ [f]) init
      = init ++ colB.filter (fun f => !(added.contains f.title)) := by
  induction colB with
  | nil => intro init; simp
  | cons f rest ih =>
    intro init
    simp only [List.foldl_cons, List.filter_cons]
    rw [ih]
    by_cases h : f.title ∈ added
    · simp [h]
    · simp [h, List.append_assoc]

/-- `dedupeFilms` is `colA` followed by the films of `colB` whose title does
not occur in `colA`. -/
theorem dedupeFilms_eq (colA colB : List Film) :
    dedupeFilms colA colB
      = colA ++ colB.filter (fun f => !((colA.map Film.title).contains f.title)) := by
  unfold dedupeFilms
  rw [dedupe_foldl_copy, dedupe_foldl_append]
  simp

theorem mem_writeToFile (catalog : List (String × Series)) (today : String)
    (p : String × Series) :
    p ∈ (writeToFile catalog today).collections ↔
      p ∈ catalog ∧ 2 < validMovieCount p.2 := by
  simp [writeToFile, List.mem_filter]

theorem mergeTags_foldl (existingTags : List Int) (tagIDs : List Int) :
    ∀ (res : List Int) (n : Nat),
      tagIDs.foldl
        (fun (acc : List Int × Nat) tagID =>
          if existingTags.contains tagID then acc else (acc.1 ++ [tagID], acc.2 + 1))
        (res, n)
      = (res ++ tagIDs.filter (fun t => !(existingTags.contains t)),
         n + (tagIDs.filter (fun t => !(existingTags.contains t))).length) := by
  induction tagIDs with
  | nil => intro res n; simp
  | cons t rest ih =>
    intro res n
    simp only [List.foldl_cons, List.filter_cons]
    by_cases h : existingTags.contains t = true
    · rw [if_pos h, if_neg (by rw [h]; decide), ih]
    · have hf : existingTags.contains t = false := by
        revert h; cases existingTags.contains t <;> simp
      rw [if_neg h, if_pos (by rw [hf]; decide), ih]
      simp [List.append_assoc]
      omega

theorem mergeMovieTags_eq (existingTags tagIDs : List Int) :
    mergeMovieTags existingTags tagIDs
      = (existingTags ++ tagIDs.filter (fun t => !(existingTags.contains t)),
         (tagIDs.filter (fun t => !(existingTags.contains t))).length) := by
  unfold mergeMovieTags
  rw [mergeTags_foldl]
  simp

theorem processJSONToRadarr_mem_addMovie
    (catalog : List (String × Series)) (id : String) (s : Series) (m : Film) :
    (id, s) ∈ catalog → 2 ≤ validMovieCount s → m ∈ s.movies → 0 < m.tmdbId →
    ∀ (tags : List StarrTag) (nextId : Int),
      ∃ tid, Op.addMovie m.tmdbId m.title m.year [tid]
        ∈ ProcessJSONToRadarr catalog tags nextId := by
  induction catalog with
  | nil => intro h; cases h
  | cons p rest ih =>
    intro hmem hcount hmovie htm tags nextId
    rcases List.mem_cons.mp hmem with heq | htail
    · subst heq
      simp only [ProcessJSONToRadarr]
      rw [if_neg (by omega)]
      refine ⟨(CreateTag tags ("metrograph-" ++ id) nextId).1, ?_⟩
      apply List.mem_append_left
      apply List.mem_append_right
      unfold seriesAddMovieOps
      exact List.mem_map_of_mem _
        (List.mem_filter.mpr ⟨hmovie, by simpa using htm⟩)
    · by_cases hlt : validMovieCount p.2 < 2
      · simp only [ProcessJSONToRadarr]
        rw [if_pos hlt]
        exact ih htail hcount hmovie htm tags nextId
      · simp only [ProcessJSONToRadarr]
        rw [if_neg hlt]
        obtain ⟨tid, hin⟩ :=
          ih htail hcount hmovie htm
            (CreateTag tags ("metrograph-" ++ p.1) nextId).2.1 (nextId + 1)
        exact ⟨tid, List.mem_append_right _ hin⟩

theorem syncLoop_deleteIds (expected : List String) (l : List Collection) :
    collectionDeleteIds (syncLoop expected l)
      = (l.filter (fun c => syncShouldDelete expected c)).map (fun c => c.id) := by
  induction l with
  | nil => rfl
  | cons c rest ih =>
    have hstep : collectionDeleteIds (syncLoop expected (c :: rest))
        = collectionDeleteIds (syncDeleteOpsFor expected c)
            ++ collectionDeleteIds (syncLoop expected rest) := by
      simp [syncLoop, collectionDeleteIds, List.filterMap_append]
    rw [hstep, ih, List.filter_cons]
    cases h : syncShouldDelete expected c with
    | false => simp [syncDeleteOpsFor, collectionDeleteIds, h]
    | true =>
      cases h2 : metrographSubtypeTest c.subtype <;>
        simp [syncDeleteOpsFor, collectionDeleteIds, h, h2]

theorem syncShouldDelete_startsWith (expected : List String) (c : Collection)
    (h : syncShouldDelete expected c = true) :
    strStartsWith "Metrograph: " c.name = true ∧ c.name ≠ "Metrograph: " ∧
      expected.contains c.name = false := by
  unfold syncShouldDelete metrographNameTest at h
  simp only [Bool.and_eq_true, decide_eq_true_eq, beq_iff_eq,
    Bool.not_eq_true'] at h
  obtain ⟨⟨hlen, htake⟩, hcon⟩ := h
  refine ⟨?_, ?_, hcon⟩
  · unfold strStartsWith
    have hplen : ("Metrograph: ").toList.length = 12 := by decide
    rw [hplen, htake]
    simp
  · intro heq
    rw [heq] at hlen
    exact absurd hlen (by decide)

theorem subtypeTest_startsWith (s : String)
    (h : metrographSubtypeTest s = true) :
    strStartsWith "metrograph-" s = true := by
  unfold metrographSubtypeTest at h
  simp only [Bool.and_eq_true, decide_eq_true_eq, beq_iff_eq] at h
  obtain ⟨⟨_, _⟩, htake⟩ := h
  unfold strStartsWith
  have hplen : ("metrograph-").toList.length = 11 := by decide
  rw [hplen, htake]
  simp

theorem createCollections_ok (tags : List StarrTag) (radarrConfig : RadarrConfig) :
    ∀ scraped : List (String × Series),
      (∀ p ∈ scraped, exceptOk (GetTagIDByName tags ("metrograph-" ++ p.1)) = true) →
      CreateCollectionsFromJSON scraped tags radarrConfig
        = (scraped.map (fun p =>
            Op.createCollection
              (mkMetrographCollection p.1 p.2
                (tagIdOrZero tags ("metrograph-" ++ p.1)) radarrConfig)),
           none) := by
  intro scraped
  induction scraped with
  | nil => intro _; rfl
  | cons p rest ih =>
    intro hall
    have hp := hall p (List.mem_cons_self p rest)
    simp only [CreateCollectionsFromJSON]
    cases hg : GetTagIDByName tags ("metrograph-" ++ p.1) with
    | error e =>
      rw [hg] at hp
      simp [exceptOk] at hp
    | ok tid =>
      simp only [hg]
      rw [ih (fun q hq => hall q (List.mem_cons_of_mem p hq))]
      simp [tagIdOrZero, hg]

/-- Membership in a guarded singleton comes with the guard. -/
theorem mem_guarded_singleton {v s : String} {p : Prop} [Decidable p]
    (h : v ∈ (if p then [s] else [])) : v = s ∧ p := by
  by_cases hp : p
  · rw [if_pos hp] at h
    exact ⟨List.mem_singleton.mp h, hp⟩
  · rw [if_neg hp] at h
    cases h

/-! ## Claims about the CatalogMerger (dedupeFilms) -/

/-- Claim C5 (confirmed): for all film sequences, the merge result is the
existing films in their original order followed by every new film whose
title (exact, case-sensitive comparison) does not occur among the existing
titles, in the order of the new films. -/
theorem merge_is_existing_then_new_titles (colA colB : List Film) :
    dedupeFilms colA colB
      = colA ++ colB.filter (fun f => !((colA.map Film.title).contains f.title)) :=
  dedupeFilms_eq colA colB

/-- Claim C6 (confirmed): a film of the existing sequence with a resolved
external identifier reappears unchanged, at the same position, in every
merge result; no merge resets or replaces it. -/
theorem merge_preserves_resolved_existing (colA colB : List Film) (i : Nat)
    (h : i < colA.length) (hres : 0 < (colA.get ⟨i, h⟩).tmdbId) :
    (dedupeFilms colA colB)[i]? = some (colA.get ⟨i, h⟩) := by
  rw [dedupeFilms_eq, List.getElem?_append, if_pos h, List.getElem?_eq_getElem h]
  rfl

/-- Witness for C6 at a concrete resolved film. -/
theorem merge_preserves_resolved_existing_witness :
    (dedupeFilms [{ title := "A", tmdbId := 5 }] [{ title := "B" }])[0]?
      = some (([{ title := "A", tmdbId := 5 }] : List Film).get ⟨0, by decide⟩) :=
  merge_preserves_resolved_existing
    [{ title := "A", tmdbId := 5 }] [{ title := "B" }] 0 (by decide) (by decide)

/-- Claim C7 (corrected): the merge length adds the number of occurrences in
the new films whose title is absent from the existing titles (not the
cardinality of their set, which collapses repeated films), and merging a
sequence with itself is the identity. -/
theorem merge_length_and_idempotence (colA colB : List Film) :
    (dedupeFilms colA colB).length
        = colA.length
          + (colB.filter (fun f => !((colA.map Film.title).contains f.title))).length
      ∧ dedupeFilms colA colA = colA := by
  constructor
  · rw [dedupeFilms_eq]
    simp
  · rw [dedupeFilms_eq]
    have hnil : colA.filter (fun f => !((colA.map Film.title).contains f.title))
        = [] := by
      rw [List.filter_eq_nil_iff]
      intro f hf
      have hex : ∃ a ∈ colA, a.title = f.title := ⟨f, hf, rfl⟩
      simp [hex]
    rw [hnil]
    simp

/-- Counterexample for C7 as stated: with a film repeated in the new
sequence, the merge appends both occurrences, so its length exceeds the
existing length plus the cardinality of the set of new films with fresh
titles. -/
theorem merge_set_cardinality_cex :
    (dedupeFilms [] [{ title := "B" }, { title := "B" }]).length = 2
      ∧ specNewTitleCard [] [{ title := "B" }, { title := "B" }] = 1 := by decide

/-! ## Claims about the TitleNormalizer (cleanTitle) -/

/-- Claim C8 (corrected): every variant list is finite (between 1 and 4
entries) and headed by the original title, and every entry after the first
is non-empty and differs from the original title; global deduplication and
global non-emptiness do not hold (see the counterexample). -/
theorem cleanTitle_shape (title : String) :
    1 ≤ (cleanTitle title).length ∧ (cleanTitle title).length ≤ 4 ∧
      (cleanTitle title).head? = some title ∧
      ∀ v ∈ (cleanTitle title).tail, v ≠ "" ∧ v ≠ title := by
  obtain ⟨a, b, c, heq⟩ : ∃ a b c : String, cleanTitle title
      = title :: ((if a ≠ title ∧ a ≠ "" then [a] else [])
          ++ (if b ≠ title ∧ b ≠ "" then [b] else [])
          ++ (if c ≠ title ∧ c ≠ a ∧ c ≠ b ∧ c ≠ "" then [c] else [])) :=
    ⟨goTrimSpace (removeBrackets title), goTrimSpace (removePresents title),
     goTrimSpace (removePresents (goTrimSpace (removeBrackets title))), rfl⟩
  rw [heq]
  have la : (if a ≠ title ∧ a ≠ "" then [a] else []).length ≤ 1 := by
    split <;> simp
  have lb : (if b ≠ title ∧ b ≠ "" then [b] else []).length ≤ 1 := by
    split <;> simp
  have lc : (if c ≠ title ∧ c ≠ a ∧ c ≠ b ∧ c ≠ "" then [c] else []).length ≤ 1 := by
    split <;> simp
  refine ⟨by simp, ?_, by simp, ?_⟩
  · simp only [List.length_cons, List.length_append]
    omega
  · intro v hv
    simp only [List.tail_cons, List.mem_append] at hv
    rcases hv with (h1 | h2) | h3
    · obtain ⟨rfl, hg1, hg2⟩ := mem_guarded_singleton h1
      exact ⟨hg2, hg1⟩
    · obtain ⟨rfl, hg1, hg2⟩ := mem_guarded_singleton h2
      exact ⟨hg2, hg1⟩
    · obtain ⟨rfl, hg1, _, _, hg4⟩ := mem_guarded_singleton h3
      exact ⟨hg4, hg1⟩

/-- Witness for C8 at the title of the specification's worked example. -/
theorem cleanTitle_shape_witness :
    ("Carol" : String) ≠ "" ∧ ("Carol" : String) ≠ "ACE Presents: Carol [4K DCP]" :=
  (cleanTitle_shape "ACE Presents: Carol [4K DCP]").2.2.2 "Carol" (by decide)

/-- Counterexample for C8 as stated: a title with surrounding whitespace and
neither rule applicable yields the trimmed title from both single rules, a
duplicate; and the empty title yields an empty first entry. -/
theorem cleanTitle_dup_empty_cex :
    cleanTitle " Carol " = [" Carol ", "Carol", "Carol"]
      ∧ ¬ (cleanTitle " Carol ").Nodup
      ∧ cleanTitle "" = [""] := by decide

/-! ## Claim about the eligibility threshold (C1) -/

/-- A series with exactly 2 resolved films, used for C1. -/
def c1s2 : Series :=
  { name := "Two", movies := [{ title := "A", tmdbId := 10 }, { title := "B", tmdbId := 11 }] }

/-- A series with exactly 3 resolved films, used for C1. -/
def c1s3 : Series :=
  { name := "Three",
    movies := [{ title := "C", tmdbId := 20 }, { title := "D", tmdbId := 21 },
               { title := "E", tmdbId := 22 }] }

/-- A catalog holding both C1 series. -/
def c1Catalog : List (String × Series) := [("s2", c1s2), ("s3", c1s3)]

/-- Claim C1 (corrected): the persistence filter of `writeToFile` keeps only
series with more than 2 resolved films, so a 2-film series is excluded from
the snapshot and a 3-film series included; but the downstream creation pass
of `ProcessJSONToRadarr` skips only series with fewer than 2 resolved films,
so both a 2-film and a 3-film series are processed there (their tag is
resolved and their resolved movies added). -/
theorem eligibility_gate (catalog : List (String × Series)) (today : String)
    (tags : List StarrTag) (nextId : Int) (id : String) (s : Series)
    (hmem : (id, s) ∈ catalog) :
    (validMovieCount s = 2 →
      ((id, s) ∉ (writeToFile catalog today).collections ∧
        ∀ m ∈ s.movies, 0 < m.tmdbId →
          ∃ tid, Op.addMovie m.tmdbId m.title m.year [tid]
            ∈ ProcessJSONToRadarr catalog tags nextId)) ∧
    (validMovieCount s = 3 →
      ((id, s) ∈ (writeToFile catalog today).collections ∧
        ∀ m ∈ s.movies, 0 < m.tmdbId →
          ∃ tid, Op.addMovie m.tmdbId m.title m.year [tid]
            ∈ ProcessJSONToRadarr catalog tags nextId)) := by
  constructor
  · intro h2
    constructor
    · intro hin
      have hgt : 2 < validMovieCount s := ((mem_writeToFile catalog today (id, s)).mp hin).2
      omega
    · intro m hm htm
      exact processJSONToRadarr_mem_addMovie catalog id s m hmem (by omega) hm htm tags nextId
  · intro h3
    constructor
    · have hgt : 2 < validMovieCount s := by omega
      exact (mem_writeToFile catalog today (id, s)).mpr ⟨hmem, hgt⟩
    · intro m hm htm
      exact processJSONToRadarr_mem_addMovie catalog id s m hmem (by omega) hm htm tags nextId

/-- Witness for C1: in the concrete catalog the 2-film series is dropped
from the snapshot and the 3-film series kept. -/
theorem eligibility_gate_witness :
    ("s2", c1s2) ∉ (writeToFile c1Catalog "2026-10-11").collections
      ∧ ("s3", c1s3) ∈ (writeToFile c1Catalog "2026-10-11").collections :=
  ⟨((eligibility_gate c1Catalog "2026-10-11" [] 1 "s2" c1s2 (by decide)).1 (by decide)).1,
   ((eligibility_gate c1Catalog "2026-10-11" [] 1 "s3" c1s3 (by decide)).2 (by decide)).1⟩

/-- Counterexample for C1 as stated: a series with exactly 2 resolved films
is excluded from the persisted snapshot yet is fully processed by the
downstream creation pass (its tag is created and both movies added), so the
threshold does not gate both sides. -/
theorem eligibility_gate_cex :
    validMovieCount c1s2 = 2
      ∧ (writeToFile [("s2", c1s2)] "2026-10-11").collections = []
      ∧ ProcessJSONToRadarr [("s2", c1s2)] [] 1
          = [Op.createTag "metrograph-s2", Op.addMovie 10 "A" 0 [1],
             Op.addMovie 11 "B" 0 [1]] := by decide

/-! ## Claim about the matching-pass error handling (C2) -/

/-- Helper: a transport error on the original title (the first variant
tried) is propagated by `SearchTMDB` as an error for that film. -/
theorem searchTMDB_transport_error (lookup : String → Int → LookupResult)
    (title : String) (year : Int) (key msg : String)
    (hk : key ≠ "") (hl : lookup title year = LookupResult.transportError msg) :
    SearchTMDB lookup title year key = .error msg := by
  unfold SearchTMDB
  rw [if_neg hk]
  obtain ⟨rest, hr⟩ : ∃ rest, cleanTitle title = title :: rest := ⟨_, rfl⟩
  rw [hr]
  simp only [searchVariants, searchTMDBWithTitle, hl]

/-- Claim C2 (corrected): inside the per-film lookup, a transport error is
propagated as an error by `SearchTMDB` (distinct from the recoverable
per-variant no-result outcome); but at the matching-pass level every lookup
failure, transport errors included, is recoverable per film:
`populateIMDBID` leaves the failing film unchanged (identifier still 0) and
processes the full list — no error terminates the pass. -/
theorem matcher_error_is_per_film (lookup : String → Int → LookupResult)
    (key : String) (films : List Film) (i : Nat) (h : i < films.length) (msg : String)
    (hk : key ≠ "")
    (hl : lookup (films.get ⟨i, h⟩).title (films.get ⟨i, h⟩).year
      = LookupResult.transportError msg) :
    SearchTMDB lookup (films.get ⟨i, h⟩).title (films.get ⟨i, h⟩).year key = .error msg
      ∧ (∀ e : String,
          SearchTMDB lookup (films.get ⟨i, h⟩).title (films.get ⟨i, h⟩).year key
              = .error e →
            (populateIMDBID lookup films key)[i]? = some (films.get ⟨i, h⟩))
      ∧ (populateIMDBID lookup films key).length = films.length := by
  have hst := searchTMDB_transport_error lookup _ _ key msg hk hl
  refine ⟨hst, ?_, by simp [populateIMDBID]⟩
  intro e he
  unfold populateIMDBID
  rw [List.getElem?_map, List.getElem?_eq_getElem h]
  have hget : films[i] = films.get ⟨i, h⟩ := rfl
  rw [hget, Option.map_some', if_pos hk, he]

/-- The lookup collaborator used by the C2 witness and counterexample: a
transport error for title Alpha, a successful hit for anything else. -/
def c2Lookup (title : String) (_year : Int) : LookupResult :=
  if title == "Alpha" then .transportError "connection refused"
  else .httpResponse 200 [{ id := 42, title := "Beta" }]

/-- The films matched in the C2 witness and counterexample. -/
def c2Films : List Film := [{ title := "Alpha" }, { title := "Beta" }]

/-- Witness for C2: the film whose lookup transport-errors stays unchanged. -/
theorem matcher_error_is_per_film_witness :
    (populateIMDBID c2Lookup c2Films "k")[0]? = some { title := "Alpha" } := by
  have h := matcher_error_is_per_film c2Lookup "k" c2Films 0 (by decide)
    "connection refused" (by decide) (by decide)
  exact h.2.1 "connection refused" h.1

/-- Counterexample for C2 as stated: the transport error on the first film
does not terminate the matching pass — the second film is still resolved and
no error is propagated (the pass is total). -/
theorem matcher_swallow_transport_cex :
    c2Lookup "Alpha" 0 = LookupResult.transportError "connection refused"
      ∧ populateIMDBID c2Lookup c2Films "k"
          = [{ title := "Alpha" }, { title := "Beta", tmdbId := 42 }] := by decide

/-! ## Claims about the reconciliation sync pass (C3, C10) -/

/-- Claim C3 (corrected): the sync pass issues a collection deletion for
exactly the existing collections passing the code's name test — name
strictly longer than the 12-character prefix `Metrograph: ` and starting
with it — that are absent from the expected names; every such name is a
proper extension of the prefix, so unrelated collections are never
deleted. -/
theorem sync_delete_characterization (scraped : List (String × Series))
    (existing : List Collection) :
    collectionDeleteIds (SyncCollectionsFromJSON scraped existing)
        = (existing.filter (fun c => syncShouldDelete (expectedNames scraped) c)).map
            (fun c => c.id)
      ∧ ∀ c : Collection, syncShouldDelete (expectedNames scraped) c = true →
          strStartsWith "Metrograph: " c.name = true ∧ c.name ≠ "Metrograph: " ∧
            (expectedNames scraped).contains c.name = false :=
  ⟨syncLoop_deleteIds (expectedNames scraped) existing,
   fun c hc => syncShouldDelete_startsWith (expectedNames scraped) c hc⟩

/-- The existing collections of the specification's reconciliation example. -/
def c3ColX : Collection := { id := "x", name := "Metrograph: X" }

/-- The obsolete collection of the example, with its tag-bearing subtype. -/
def c3ColY : Collection := { id := "y", name := "Metrograph: Y", subtype := "metrograph-5" }

/-- The unrelated collection of the example. -/
def c3ColU : Collection := { id := "u", name := "Unrelated" }

/-- A catalog whose only series is the eligible X. -/
def c3Scraped : List (String × Series) :=
  [("1", { name := "X",
           movies := [{ title := "F1", tmdbId := 1 }, { title := "F2", tmdbId := 2 }] })]

/-- Witness for C3, at the collection the example deletes. -/
theorem sync_delete_characterization_witness :
    strStartsWith "Metrograph: " c3ColY.name = true ∧ c3ColY.name ≠ "Metrograph: "
      ∧ (expectedNames c3Scraped).contains c3ColY.name = false :=
  (sync_delete_characterization c3Scraped [c3ColX, c3ColY, c3ColU]).2 c3ColY (by decide)

/-- A collection named exactly by the bare prefix. -/
def c3Edge : Collection := { id := "c1", name := "Metrograph: " }

/-- Counterexample for C3 as stated: a collection named exactly
`Metrograph: ` starts with the prefix and is not expected, yet the pass
issues no deletion for it, because the code requires the name to be strictly
longer than the prefix. -/
theorem sync_exact_prefix_name_cex :
    specSyncDeletes (expectedNames []) c3Edge
      ∧ SyncCollectionsFromJSON [] [c3Edge] = [] :=
  ⟨⟨by decide, by decide⟩, by decide⟩

/-- Claim C10 (confirmed): the sync pass is delete-only — every operation it
issues is a collection deletion or a tag deletion, and every tag deletion
carries the subtype of some existing collection, a subtype starting with
`metrograph-`; no create or update of any collection, tag or movie is ever
issued by this pass. -/
theorem sync_pass_is_delete_only (scraped : List (String × Series))
    (existing : List Collection) (op : Op)
    (hop : op ∈ SyncCollectionsFromJSON scraped existing) :
    ((∃ i, op = Op.deleteCollection i) ∨ (∃ lbl, op = Op.deleteTag lbl))
      ∧ ∀ lbl, op = Op.deleteTag lbl →
          ∃ c, c ∈ existing ∧ c.subtype = lbl
            ∧ strStartsWith "metrograph-" lbl = true := by
  induction existing with
  | nil => cases hop
  | cons c rest ih =>
    rcases List.mem_append.mp hop with hin | hin
    · unfold syncDeleteOpsFor at hin
      by_cases hd : syncShouldDelete (expectedNames scraped) c = true
      · rw [if_pos hd] at hin
        rcases List.mem_cons.mp hin with heq | htag
        · subst heq
          refine ⟨Or.inl ⟨c.id, rfl⟩, ?_⟩
          intro lbl hlbl
          cases hlbl
        · by_cases ht : metrographSubtypeTest c.subtype = true
          · rw [if_pos ht] at htag
            have heq : op = Op.deleteTag c.subtype := List.mem_singleton.mp htag
            subst heq
            refine ⟨Or.inr ⟨c.subtype, rfl⟩, ?_⟩
            intro lbl hlbl
            have hsub : c.subtype = lbl := by injection hlbl
            subst hsub
            exact ⟨c, List.mem_cons_self c rest, rfl, subtypeTest_startsWith c.subtype ht⟩
          · rw [if_neg ht] at htag
            cases htag
      · rw [if_neg hd] at hin
        cases hin
    · obtain ⟨hkind, htag⟩ := ih hin
      refine ⟨hkind, ?_⟩
      intro lbl hlbl
      obtain ⟨c2, hc2, hs, hst⟩ := htag lbl hlbl
      exact ⟨c2, List.mem_cons_of_mem c hc2, hs, hst⟩

/-- Witness for C10, at the tag deletion the sample state issues. -/
theorem sync_pass_is_delete_only_witness :
    ((∃ i, Op.deleteTag "metrograph-5" = Op.deleteCollection i)
        ∨ (∃ lbl, Op.deleteTag "metrograph-5" = Op.deleteTag lbl))
      ∧ ∀ lbl, Op.deleteTag "metrograph-5" = Op.deleteTag lbl →
          ∃ c, c ∈ [c3ColY] ∧ c.subtype = lbl
            ∧ strStartsWith "metrograph-" lbl = true :=
  sync_pass_is_delete_only [] [c3ColY] (Op.deleteTag "metrograph-5") (by decide)

/-! ## Claim about the downstream creation pass (C4) -/

/-- Claim C4 (corrected): when every series tag label is present in Radarr,
`CreateCollectionsFromJSON` creates one collection per series of the input
file — with no eligibility filtering and no check against the collections
already downstream — resolving the tag id by lookup only (`GetTagIDByName`,
not create-if-absent), and naming each collection `Metrograph: ` + name with
subtype `metrograph-` + seriesId. -/
theorem create_pass_unfiltered (scraped : List (String × Series))
    (tags : List StarrTag) (radarrConfig : RadarrConfig)
    (hall : ∀ p ∈ scraped,
      exceptOk (GetTagIDByName tags ("metrograph-" ++ p.1)) = true) :
    CreateCollectionsFromJSON scraped tags radarrConfig
        = (scraped.map (fun p =>
            Op.createCollection
              (mkMetrographCollection p.1 p.2
                (tagIdOrZero tags ("metrograph-" ++ p.1)) radarrConfig)), none)
      ∧ ∀ (i : String) (s : Series) (t : Int) (cfg : RadarrConfig),
          (mkMetrographCollection i s t cfg).name = "Metrograph: " ++ s.name
            ∧ (mkMetrographCollection i s t cfg).subtype = "metrograph-" ++ i :=
  ⟨createCollections_ok tags radarrConfig scraped hall,
   fun _ _ _ _ => ⟨rfl, rfl⟩⟩

/-- A series with no resolved film at all, used for C4. -/
def c4Series : Series := { name := "Empty", movies := [{ title := "Z" }] }

/-- The Radarr tag state holding the tag of the C4 series. -/
def c4Tags : List StarrTag := [{ id := 7, label := "metrograph-s1" }]

/-- Witness for C4: with the tag present, the pass creates the collection
for the (ineligible) series and reports no error. -/
theorem create_pass_unfiltered_witness :
    CreateCollectionsFromJSON [("s1", c4Series)] c4Tags ({} : RadarrConfig)
        = (([("s1", c4Series)] : List (String × Series)).map (fun p =>
            Op.createCollection
              (mkMetrographCollection p.1 p.2
                (tagIdOrZero c4Tags ("metrograph-" ++ p.1)) ({} : RadarrConfig))),
           none) :=
  (create_pass_unfiltered [("s1", c4Series)] c4Tags ({} : RadarrConfig) (by decide)).1

/-- Counterexample for C4 as stated: a series with 0 resolved films (far
below the eligibility threshold) still gets a collection created, and when
its tag label is absent the pass does not create the tag but aborts with
the lookup error, so tag resolution is not create-if-absent. -/
theorem create_pass_unfiltered_cex :
    validMovieCount c4Series = 0
      ∧ (CreateCollectionsFromJSON [("s1", c4Series)] c4Tags ({} : RadarrConfig)).1
          = [Op.createCollection (mkMetrographCollection "s1" c4Series 7 {})]
      ∧ CreateCollectionsFromJSON [("s1", c4Series)] [] ({} : RadarrConfig)
          = ([], some "tag metrograph-s1 not found in Radarr") := by decide

/-! ## Claim about idempotent movie tagging (C9) -/

/-- Claim C9 (corrected): an add failure classified as already-exists
succeeds and merges the requested tag ids into the existing tag set — the
result is the previous tags followed by each requested occurrence not
already present, no existing tag is removed, and nothing is modified when
all requested ids are present; freedom from duplicates holds when the
request list and the existing tag set are themselves duplicate-free (a
repeated fresh id in the request is appended twice, see the
counterexample). -/
theorem addmovie_tag_merge (msg : String) (prev req : List Int)
    (hmsg : isAlreadyExistsResponse msg = true) :
    AddMovieResultOnFailure msg prev req = .ok (AddMovieOnExists prev req)
      ∧ (AddMovieOnExists prev req).1 = prev ++ req.filter (fun t => !(prev.contains t))
      ∧ (∀ t ∈ prev, t ∈ (AddMovieOnExists prev req).1)
      ∧ (prev.Nodup → req.Nodup → ((AddMovieOnExists prev req).1).Nodup)
      ∧ ((∀ t ∈ req, t ∈ prev) → AddMovieOnExists prev req = (prev, false)) := by
  have hm := mergeMovieTags_eq prev req
  have h1 : (AddMovieOnExists prev req).1
      = prev ++ req.filter (fun t => !(prev.contains t)) := by
    unfold AddMovieOnExists
    rw [hm]
    by_cases hz : 0 < (req.filter (fun t => !(prev.contains t))).length
    · rw [if_pos hz]
    · rw [if_neg hz]
      have hfe : req.filter (fun t => !(prev.contains t)) = [] :=
        List.length_eq_zero.mp (by omega)
      rw [hfe]
      simp
  refine ⟨?_, h1, ?_, ?_, ?_⟩
  · unfold AddMovieResultOnFailure
    rw [if_pos hmsg]
  · intro t ht
    rw [h1]
    exact List.mem_append_left _ ht
  · intro hnp hnr
    rw [h1]
    refine List.Nodup.append hnp (hnr.filter _) ?_
    intro a ha hafil
    have hnot := (List.mem_filter.mp hafil).2
    simp only [Bool.not_eq_true'] at hnot
    have hnotmem : a ∉ prev := by simpa using hnot
    exact hnotmem ha
  · intro hsub
    unfold AddMovieOnExists
    rw [hm]
    have hfe : req.filter (fun t => !(prev.contains t)) = [] := by
      rw [List.filter_eq_nil_iff]
      intro t ht
      have : t ∈ prev := hsub t ht
      simp [this]
    rw [hfe]
    simp

/-- Witness for C9 at a concrete already-exists message and tag sets. -/
theorem addmovie_tag_merge_witness :
    AddMovieResultOnFailure "This movie has already been added" [1] [1, 2]
        = .ok (AddMovieOnExists [1] [1, 2])
      ∧ (AddMovieOnExists [1] [1, 2]).1
          = [1] ++ [1, 2].filter (fun t => !(([1] : List Int).contains t)) :=
  ⟨(addmovie_tag_merge "This movie has already been added" [1] [1, 2] (by decide)).1,
   (addmovie_tag_merge "This movie has already been added" [1] [1, 2] (by decide)).2.1⟩

/-- Counterexample for C9 as stated: a request repeating one fresh tag id
is appended twice, duplicating a tag id in the stored tag set. -/
theorem addmovie_tag_merge_cex :
    (AddMovieOnExists [] [5, 5]).1 = [5, 5]
      ∧ ¬ ((AddMovieOnExists [] [5, 5]).1).Nodup := by decide

end Metrograph
